import Mathlib

/-!
Verification of the client prioritisation engine in `src/prioritisation.js`
(`calculatePriority`, `calculateMetricRankings`, `calculateStatistics`).

JavaScript numbers are modelled by exact rationals (`ℚ`); client record
fields are modelled by `JVal`, covering the shapes the engine can meet:
absent (`undefined`), `null`, a number, or a string.  A string is abstracted
by the result of parsing its decimal-numeric prefix (`none` when the string
is non-numeric), which is the only way the engine ever looks at a string.
-/

/-- A JavaScript value stored in a client-record field. -/
inductive JVal where
  /-- The field is absent (`undefined`). -/
  | undef : JVal
  /-- The field holds `null`. -/
  | jnull : JVal
  /-- The field holds a number. -/
  | num : ℚ → JVal
  /-- The field holds a string, abstracted by its decimal-numeric-prefix
  parse: `some q` when the string parses to the number `q`, `none` when it
  is non-numeric (both `parseFloat` and `parseInt` yield `NaN`). -/
  | str : Option ℚ → JVal
deriving DecidableEq, Repr

/-- JavaScript truncation toward zero, as `parseInt` applied to the decimal
rendering of a number: `parseInt(2.5) = 2`, `parseInt(-2.5) = -2`. -/
def jsTrunc (q : ℚ) : ℤ :=
  if 0 ≤ q then ⌊q⌋ else ⌈q⌉

/-- JS `parseFloat(v)`: `some q` for a numeric result, `none` for `NaN`.
`parseFloat(undefined)` and `parseFloat(null)` are `NaN`; a number parses to
itself; a string parses to its decimal-numeric prefix when it has one. -/
def jsParseFloat : JVal → Option ℚ
  | .undef => none
  | .jnull => none
  | .num q => some q
  | .str p => p

/-- JS `parseInt(v)`: `some n` for a numeric result, `none` for `NaN`.
On a number or a numeric string it keeps the integer part of the decimal
rendering, i.e. truncates toward zero. -/
def jsParseInt : JVal → Option ℤ
  | .undef => none
  | .jnull => none
  | .num q => some (jsTrunc q)
  | .str p => p.map jsTrunc

/-- The expression `parseFloat(v) || 0`: `NaN` is replaced by `0` (and `0` stays `0`).
Note a nonzero negative number is truthy, so it is NOT replaced. -/
def or0F (v : JVal) : ℚ :=
  (jsParseFloat v).getD 0

/-- The expression `parseInt(v) || 0`: `NaN` is replaced by `0` (and `0` stays `0`).
Note a nonzero negative integer is truthy, so it is NOT replaced. -/
def or0I (v : JVal) : ℤ :=
  (jsParseInt v).getD 0

/-- JS `Math.round(q)`: round half toward positive infinity. -/
def jsRound (q : ℚ) : ℤ :=
  ⌊q + 1/2⌋

/-- Rounding `Math.round(q * 100) / 100`: round to 2 decimal places. -/
def round2 (q : ℚ) : ℚ :=
  (jsRound (q * 100) : ℚ) / 100

/-- Rounding `Math.round(q * 10) / 10`: round to 1 decimal place. -/
def round1 (q : ℚ) : ℚ :=
  (jsRound (q * 10) : ℚ) / 10

/-- A client record, restricted to the fields the engine reads:
`client.id` (an identifier compared with `===`; `none` models an absent
`id`, and `undefined === undefined` is true) and the four metric fields
accessed as `client['Total Portfolio AUA']`, `client['TotalFees']`,
`client['LoginsL12M']`, `client['MeetingsL12M']`. -/
structure Client where
  id : Option ℤ
  totalPortfolioAUA : JVal
  totalFees : JVal
  loginsL12M : JVal
  meetingsL12M : JVal
deriving DecidableEq, Repr

/-- Priority tier label. -/
inductive Tier where
  | High : Tier
  | Medium : Tier
  | Low : Tier
deriving DecidableEq, Repr

/-- The `breakdown` object returned by `calculatePriority`. -/
structure Breakdown where
  auaScore : ℚ
  feesScore : ℚ
  engagementScore : ℚ
deriving DecidableEq, Repr

/-- The result object of `calculatePriority`. -/
structure PriorityScore where
  score : ℚ
  tier : Tier
  breakdown : Breakdown
deriving DecidableEq, Repr

/-- The AUA step block of `calculatePriority` (`score += ...` on AUA):
`>=600000 → 50`, `>=400000 → 40`, `>=250000 → 30`, `>=150000 → 20`,
`>=75000 → 10`, otherwise `Math.min(aua / 7500, 5)`. -/
def auaComponent (aua : ℚ) : ℚ :=
  if 600000 ≤ aua then 50
  else if 400000 ≤ aua then 40
  else if 250000 ≤ aua then 30
  else if 150000 ≤ aua then 20
  else if 75000 ≤ aua then 10
  else min (aua / 7500) 5

/-- The fees step block of `calculatePriority`:
`>=10000 → 30`, `>=7500 → 24`, `>=5000 → 18`, `>=2500 → 12`, `>=1000 → 6`,
otherwise `Math.min(fees / 200, 3)`. -/
def feesComponent (fees : ℚ) : ℚ :=
  if 10000 ≤ fees then 30
  else if 7500 ≤ fees then 24
  else if 5000 ≤ fees then 18
  else if 2500 ≤ fees then 12
  else if 1000 ≤ fees then 6
  else min (fees / 200) 3

/-- The logins part of the engagement block: `Math.min(logins / 18, 10)`. -/
def loginsComponent (logins : ℤ) : ℚ :=
  min ((logins : ℚ) / 18) 10

/-- The meetings part of the engagement block: `Math.min(meetings / 5, 10)`. -/
def meetingsComponent (meetings : ℤ) : ℚ :=
  min ((meetings : ℚ) / 5) 10

/-- The function `calculatePriority(client)` from `src/prioritisation.js`: sums the four
capped contributions, rounds to 2 decimal places, assigns the tier from the
rounded score, and recomputes the displayed breakdown from separate
formulas (`aua/12000` and `fees/500` linear scales rounded to 1 decimal,
raw `logins/18 + meetings/5`). -/
def calculatePriority (client : Client) : PriorityScore :=
  let aua := or0F client.totalPortfolioAUA
  let fees := or0F client.totalFees
  let logins := or0I client.loginsL12M
  let meetings := or0I client.meetingsL12M
  let score := round2 (auaComponent aua + feesComponent fees +
    loginsComponent logins + meetingsComponent meetings)
  let tier := if 75 ≤ score then Tier.High
    else if 60 ≤ score then Tier.Medium
    else Tier.Low
  { score := score
    tier := tier
    breakdown :=
      { auaScore := min 50 (if 50 ≤ score then 50 else round1 (aua / 12000))
        feesScore := min 30 (round1 (fees / 500))
        engagementScore :=
          min 20 ((logins : ℚ) / 18 + (meetings : ℚ) / 5) } }

/-- Build a client whose four metric fields are plain numbers. -/
def mkNumClient (aua fees logins meetings : ℚ) : Client :=
  { id := none
    totalPortfolioAUA := .num aua
    totalFees := .num fees
    loginsL12M := .num logins
    meetingsL12M := .num meetings }

/-- AUA value read by the ranking comparator:
`parseFloat(x['Total Portfolio AUA']) || 0`. -/
def auaOf (c : Client) : ℚ :=
  or0F c.totalPortfolioAUA

/-- Fees value read by the ranking comparator: `parseFloat(x['TotalFees']) || 0`. -/
def feesOf (c : Client) : ℚ :=
  or0F c.totalFees

/-- Engagement value read by the ranking comparator:
`(parseInt(x['LoginsL12M']) || 0) + (parseInt(x['MeetingsL12M']) || 0)`. -/
def engagementOf (c : Client) : ℤ :=
  or0I c.loginsL12M + or0I c.meetingsL12M

/-- JS `array.findIndex(p)`: the 0-based index of the first element
satisfying `p`, or `-1` when no element does. -/
def jsFindIndex (l : List Client) (p : Client → Bool) : ℤ :=
  if l.findIdx p < l.length then (l.findIdx p : ℤ) else -1

/-- The result object of `calculateMetricRankings`. -/
structure Rankings where
  auaRank : ℤ
  feesRank : ℤ
  engagementRank : ℤ
  totalClients : ℕ
deriving DecidableEq, Repr

/-- The function `calculateMetricRankings(client, allClients)` from
`src/prioritisation.js`: sorts the cohort by each metric in descending
order (JS `sort` is stable, modelled by `List.mergeSort`), then reports
`findIndex(c => c.id === client.id) + 1` in each ordering, and the cohort
size. -/
def calculateMetricRankings (client : Client) (allClients : List Client) :
    Rankings :=
  let sortedByAUA := allClients.mergeSort (fun a b => decide (auaOf b ≤ auaOf a))
  let sortedByFees := allClients.mergeSort (fun a b => decide (feesOf b ≤ feesOf a))
  let sortedByEngagement :=
    allClients.mergeSort (fun a b => decide (engagementOf b ≤ engagementOf a))
  { auaRank := jsFindIndex sortedByAUA (fun c => c.id == client.id) + 1
    feesRank := jsFindIndex sortedByFees (fun c => c.id == client.id) + 1
    engagementRank :=
      jsFindIndex sortedByEngagement (fun c => c.id == client.id) + 1
    totalClients := allClients.length }

/-- A cohort member as consumed by `calculateStatistics`: the function only
reads `client.priority` (the attached `PriorityScore`). -/
structure ScoredClient where
  priority : PriorityScore
deriving DecidableEq, Repr

/-- One entry of the `tierDistribution` array. -/
structure TierEntry where
  tier : Tier
  count : ℕ
  color : String
deriving DecidableEq, Repr

/-- The mutable `tierCounts` object threaded through the `forEach` loop. -/
structure TierCounts where
  High : ℕ
  Medium : ℕ
  Low : ℕ
deriving DecidableEq, Repr

/-- One iteration of the loop body `tierCounts[client.priority.tier]++`. -/
def bumpTier (tc : TierCounts) : Tier → TierCounts
  | .High => { tc with High := tc.High + 1 }
  | .Medium => { tc with Medium := tc.Medium + 1 }
  | .Low => { tc with Low := tc.Low + 1 }

/-- JS `q.toFixed(2)`: the rational value denoted by the produced decimal
string, i.e. rounding to 2 decimal places with ties away from zero
(the sign is split off first, then ties round upward). -/
def toFixed2 (q : ℚ) : ℚ :=
  if q < 0 then -((⌊-q * 100 + 1/2⌋ : ℚ) / 100)
  else (⌊q * 100 + 1/2⌋ : ℚ) / 100

/-- The result object of `calculateStatistics`. -/
structure Statistics where
  tierDistribution : List TierEntry
  totalClients : ℕ
  averageScore : ℚ
deriving DecidableEq, Repr

/-- The function `calculateStatistics(allClients)` from
`src/prioritisation.js`: counts members per tier with a `forEach` loop,
then returns the distribution, the cohort size, and
`(sum of scores / length).toFixed(2)` when the cohort is non-empty,
`0` otherwise. -/
def calculateStatistics (allClients : List ScoredClient) : Statistics :=
  let tierCounts :=
    allClients.foldl (fun tc c => bumpTier tc c.priority.tier) ⟨0, 0, 0⟩
  { tierDistribution := [
      ⟨Tier.High, tierCounts.High, "#10b981"⟩,
      ⟨Tier.Medium, tierCounts.Medium, "#f97316"⟩,
      ⟨Tier.Low, tierCounts.Low, "#ef4444"⟩]
    totalClients := allClients.length
    averageScore :=
      if 0 < allClients.length then
        toFixed2
          (allClients.foldl (fun s c => s + c.priority.score) 0 /
            (allClients.length : ℚ))
      else 0 }

/-! ### Helper lemmas -/

/-- Unfolded form of the score field. -/
lemma calculatePriority_score_eq (c : Client) :
    (calculatePriority c).score =
      round2 (auaComponent (or0F c.totalPortfolioAUA) +
        feesComponent (or0F c.totalFees) +
        loginsComponent (or0I c.loginsL12M) +
        meetingsComponent (or0I c.meetingsL12M)) := rfl

lemma auaComponent_le (a : ℚ) : auaComponent a ≤ 50 := by
  unfold auaComponent
  split_ifs <;>
    first
      | norm_num
      | exact le_trans (min_le_right _ _) (by norm_num)

lemma feesComponent_le (f : ℚ) : feesComponent f ≤ 30 := by
  unfold feesComponent
  split_ifs <;>
    first
      | norm_num
      | exact le_trans (min_le_right _ _) (by norm_num)

lemma loginsComponent_le (k : ℤ) : loginsComponent k ≤ 10 :=
  min_le_right _ _

lemma meetingsComponent_le (m : ℤ) : meetingsComponent m ≤ 10 :=
  min_le_right _ _

lemma auaComponent_nonneg {a : ℚ} (h : 0 ≤ a) : 0 ≤ auaComponent a := by
  unfold auaComponent
  split_ifs <;>
    first
      | exact le_min (div_nonneg h (by norm_num)) (by norm_num)
      | norm_num

lemma feesComponent_nonneg {f : ℚ} (h : 0 ≤ f) : 0 ≤ feesComponent f := by
  unfold feesComponent
  split_ifs <;>
    first
      | exact le_min (div_nonneg h (by norm_num)) (by norm_num)
      | norm_num

lemma loginsComponent_nonneg {k : ℤ} (h : 0 ≤ k) : 0 ≤ loginsComponent k :=
  le_min (div_nonneg (by exact_mod_cast h) (by norm_num)) (by norm_num)

lemma meetingsComponent_nonneg {m : ℤ} (h : 0 ≤ m) : 0 ≤ meetingsComponent m :=
  le_min (div_nonneg (by exact_mod_cast h) (by norm_num)) (by norm_num)

lemma auaComponent_cap_or_le (a : ℚ) :
    auaComponent a = 50 ∨ auaComponent a ≤ 40 := by
  unfold auaComponent
  split_ifs <;>
    first
      | exact Or.inl rfl
      | exact Or.inr (by norm_num)
      | exact Or.inr (le_trans (min_le_right _ _) (by norm_num))

lemma feesComponent_cap_or_le (f : ℚ) :
    feesComponent f = 30 ∨ feesComponent f ≤ 24 := by
  unfold feesComponent
  split_ifs <;>
    first
      | exact Or.inl rfl
      | exact Or.inr (by norm_num)
      | exact Or.inr (le_trans (min_le_right _ _) (by norm_num))

lemma loginsComponent_cap_or_le (k : ℤ) :
    loginsComponent k = 10 ∨ loginsComponent k ≤ 179/18 := by
  rcases le_or_lt 10 ((k : ℚ) / 18) with h | h
  · exact Or.inl (min_eq_right h)
  · right
    have hk : (k : ℚ) < 180 := by
      have := (div_lt_iff₀ (by norm_num : (0:ℚ) < 18)).mp h
      linarith
    have hk2 : k ≤ 179 := by
      have : k < 180 := by exact_mod_cast hk
      omega
    have hk3 : (k : ℚ) ≤ 179 := by exact_mod_cast hk2
    have := min_le_left ((k : ℚ) / 18) 10
    unfold loginsComponent
    linarith

lemma meetingsComponent_cap_or_le (m : ℤ) :
    meetingsComponent m = 10 ∨ meetingsComponent m ≤ 49/5 := by
  rcases le_or_lt 10 ((m : ℚ) / 5) with h | h
  · exact Or.inl (min_eq_right h)
  · right
    have hm : (m : ℚ) < 50 := by
      have := (div_lt_iff₀ (by norm_num : (0:ℚ) < 5)).mp h
      linarith
    have hm2 : m ≤ 49 := by
      have : m < 50 := by exact_mod_cast hm
      omega
    have hm3 : (m : ℚ) ≤ 49 := by exact_mod_cast hm2
    have := min_le_left ((m : ℚ) / 5) 10
    unfold meetingsComponent
    linarith

lemma round2_le_100 {x : ℚ} (h : x ≤ 100) : round2 x ≤ 100 := by
  unfold round2 jsRound
  have h1 : ⌊x * 100 + 1/2⌋ ≤ 10000 := by
    have hb : x * 100 + 1/2 ≤ (20001 : ℚ) / 2 := by linarith
    calc ⌊x * 100 + 1/2⌋ ≤ ⌊(20001 : ℚ) / 2⌋ := Int.floor_le_floor hb
      _ = 10000 := by norm_num
  have h2 : ((⌊x * 100 + 1/2⌋ : ℤ) : ℚ) ≤ 10000 := by exact_mod_cast h1
  linarith

lemma round2_nonneg {x : ℚ} (h : 0 ≤ x) : 0 ≤ round2 x := by
  unfold round2 jsRound
  have h1 : (0 : ℤ) ≤ ⌊x * 100 + 1/2⌋ := by
    apply Int.le_floor.mpr
    push_cast
    linarith
  have h2 : (0 : ℚ) ≤ ((⌊x * 100 + 1/2⌋ : ℤ) : ℚ) := by exact_mod_cast h1
  linarith

lemma le_of_round2_eq_100 {x : ℚ} (h : round2 x = 100) : 19999/200 ≤ x := by
  unfold round2 jsRound at h
  have h1 : ⌊x * 100 + 1/2⌋ = 10000 := by
    have h2 : ((⌊x * 100 + 1/2⌋ : ℤ) : ℚ) = 100 * 100 :=
      (div_eq_iff (by norm_num)).mp h
    exact_mod_cast h2
  have h3 : (10000 : ℚ) ≤ x * 100 + 1/2 := by
    have := Int.le_floor.mp h1.ge
    exact_mod_cast this
  linarith

/-! ### Claims -/

/-- C1 (counterexample): the claimed lower bound `0 <= score` fails on a
record with a negative metric field.  A client with `Total Portfolio AUA`
equal to `-7500` falls into the sub-75000 linear ramp and receives score
`-1 < 0`, because `parseFloat(x) || 0` keeps nonzero negative values. -/
theorem negativeAUA_score_below_zero :
    (calculatePriority (mkNumClient (-7500) 0 0 0)).score = -1 ∧
    (calculatePriority (mkNumClient (-7500) 0 0 0)).score < 0 := by
  constructor <;>
    norm_num [calculatePriority, mkNumClient, or0F, or0I, jsParseFloat,
      jsParseInt, jsTrunc, auaComponent, feesComponent, loginsComponent,
      meetingsComponent, round2, round1, jsRound, min_def]

/-- C1 (amended): for every client record, `score ≤ 100`; the lower bound
`0 ≤ score` holds whenever the coerced metric values are nonnegative (in
particular for absent, null, or non-numeric fields, which coerce to `0`,
but not for negative numeric fields); and `100` is a hard ceiling attained
only when all four capped contributions sit exactly at their caps
(50, 30, 10 and 10). -/
theorem calculatePriority_score_bounds (c : Client) :
    (calculatePriority c).score ≤ 100 ∧
    (0 ≤ or0F c.totalPortfolioAUA → 0 ≤ or0F c.totalFees →
      0 ≤ or0I c.loginsL12M → 0 ≤ or0I c.meetingsL12M →
      0 ≤ (calculatePriority c).score) ∧
    ((calculatePriority c).score = 100 →
      auaComponent (or0F c.totalPortfolioAUA) = 50 ∧
      feesComponent (or0F c.totalFees) = 30 ∧
      loginsComponent (or0I c.loginsL12M) = 10 ∧
      meetingsComponent (or0I c.meetingsL12M) = 10) := by
  rw [calculatePriority_score_eq]
  have bA := auaComponent_le (or0F c.totalPortfolioAUA)
  have bF := feesComponent_le (or0F c.totalFees)
  have bL := loginsComponent_le (or0I c.loginsL12M)
  have bM := meetingsComponent_le (or0I c.meetingsL12M)
  refine ⟨round2_le_100 (by linarith), ?_, ?_⟩
  · intro h1 h2 h3 h4
    have nA := auaComponent_nonneg h1
    have nF := feesComponent_nonneg h2
    have nL := loginsComponent_nonneg h3
    have nM := meetingsComponent_nonneg h4
    exact round2_nonneg (by linarith)
  · intro h100
    have hx := le_of_round2_eq_100 h100
    rcases auaComponent_cap_or_le (or0F c.totalPortfolioAUA) with hA | hA
    · rcases feesComponent_cap_or_le (or0F c.totalFees) with hF | hF
      · rcases loginsComponent_cap_or_le (or0I c.loginsL12M) with hL | hL
        · rcases meetingsComponent_cap_or_le (or0I c.meetingsL12M) with hM | hM
          · exact ⟨hA, hF, hL, hM⟩
          · exfalso; linarith
        · exfalso; linarith
      · exfalso; linarith
    · exfalso; linarith

/-- C1 witness: the all-caps client (AUA 650000, fees 12000, 360 logins,
50 meetings) scores exactly 100, so every hypothesis of the bounds theorem
is satisfiable at it. -/
theorem calculatePriority_score_bounds_witness :
    (calculatePriority (mkNumClient 650000 12000 360 50)).score ≤ 100 ∧
    0 ≤ (calculatePriority (mkNumClient 650000 12000 360 50)).score ∧
    (auaComponent (or0F (mkNumClient 650000 12000 360 50).totalPortfolioAUA) = 50 ∧
      feesComponent (or0F (mkNumClient 650000 12000 360 50).totalFees) = 30 ∧
      loginsComponent (or0I (mkNumClient 650000 12000 360 50).loginsL12M) = 10 ∧
      meetingsComponent (or0I (mkNumClient 650000 12000 360 50).meetingsL12M) = 10) := by
  obtain ⟨h1, h2, h3⟩ := calculatePriority_score_bounds (mkNumClient 650000 12000 360 50)
  refine ⟨h1, h2 (by decide) (by decide) (by decide) (by decide), h3 ?_⟩
  norm_num [calculatePriority, mkNumClient, or0F, or0I, jsParseFloat,
    jsParseInt, jsTrunc, auaComponent, feesComponent, loginsComponent,
    meetingsComponent, round2, round1, jsRound, min_def]

/-- Tier assignment exactly as the spec words it, as a function of the
final rounded score alone: `score>=75 → High`, `score in [60,75) → Medium`,
`score<60 → Low`. -/
def specTierOfScore (s : ℚ) : Tier :=
  if 75 ≤ s then Tier.High
  else if 60 ≤ s then Tier.Medium
  else Tier.Low

lemma specTierOfScore_eq_High (s : ℚ) :
    specTierOfScore s = Tier.High ↔ 75 ≤ s := by
  unfold specTierOfScore
  split_ifs with h1 h2
  · simp [h1]
  · simp [h1]
  · simp [h1]

lemma specTierOfScore_eq_Medium (s : ℚ) :
    specTierOfScore s = Tier.Medium ↔ 60 ≤ s ∧ s < 75 := by
  unfold specTierOfScore
  split_ifs with h1 h2
  · constructor
    · intro h; cases h
    · rintro ⟨-, h75⟩; linarith
  · exact ⟨fun _ => ⟨h2, lt_of_not_ge h1⟩, fun _ => rfl⟩
  · constructor
    · intro h; cases h
    · rintro ⟨h60, -⟩; exact absurd h60 h2
  
lemma specTierOfScore_eq_Low (s : ℚ) :
    specTierOfScore s = Tier.Low ↔ s < 60 := by
  unfold specTierOfScore
  split_ifs with h1 h2
  · constructor
    · intro h; cases h
    · intro h; linarith
  · constructor
    · intro h; cases h
    · intro h; exact absurd h2 (not_le.mpr h)
  · exact ⟨fun _ => lt_of_not_ge h2, fun _ => rfl⟩

/-- C2: the tier returned by `calculatePriority` is a pure function of the
final rounded score only, and matches the documented thresholds:
High iff `score >= 75`, Medium iff `60 <= score < 75`, Low iff
`score < 60`. -/
theorem calculatePriority_tier_thresholds (c : Client) :
    (calculatePriority c).tier = specTierOfScore ((calculatePriority c).score) ∧
    ((calculatePriority c).tier = Tier.High ↔ 75 ≤ (calculatePriority c).score) ∧
    ((calculatePriority c).tier = Tier.Medium ↔
      60 ≤ (calculatePriority c).score ∧ (calculatePriority c).score < 75) ∧
    ((calculatePriority c).tier = Tier.Low ↔ (calculatePriority c).score < 60) := by
  have h : (calculatePriority c).tier = specTierOfScore ((calculatePriority c).score) := rfl
  rw [h]
  exact ⟨rfl, specTierOfScore_eq_High _, specTierOfScore_eq_Medium _,
    specTierOfScore_eq_Low _⟩

/-- C3: the reported breakdown is computed from different formulas than the
components producing the total, and for some client record the breakdown
fields do not sum to the returned score.  The scenario-1 client is such a
record: breakdown `50 + 24 + 104/45` against score `82.31`. -/
theorem exists_breakdown_sum_ne_score :
    ∃ c : Client,
      (calculatePriority c).breakdown.auaScore +
        (calculatePriority c).breakdown.feesScore +
        (calculatePriority c).breakdown.engagementScore ≠
      (calculatePriority c).score := by
  refine ⟨mkNumClient 650000 12000 20 6, ?_⟩
  norm_num [calculatePriority, mkNumClient, or0F, or0I, jsParseFloat,
    jsParseInt, jsTrunc, auaComponent, feesComponent, loginsComponent,
    meetingsComponent, round2, round1, jsRound, min_def]

/-- C4 (counterexample): a client whose AUA is the negative number `-7500`
does NOT score identically to one whose AUA is `0`: the former gets score
`-1`, the latter `0`, because `parseFloat(x) || 0` only replaces `NaN`
(and `0`), never a nonzero negative value. -/
theorem negativeAUA_differs_from_zeroAUA :
    (calculatePriority (mkNumClient (-7500) 0 0 0)).score = -1 ∧
    (calculatePriority (mkNumClient 0 0 0 0)).score = 0 ∧
    calculatePriority (mkNumClient (-7500) 0 0 0) ≠
      calculatePriority (mkNumClient 0 0 0 0) := by
  refine ⟨?_, ?_, ?_⟩ <;>
    norm_num [calculatePriority, mkNumClient, or0F, or0I, jsParseFloat,
      jsParseInt, jsTrunc, auaComponent, feesComponent, loginsComponent,
      meetingsComponent, round2, round1, jsRound, min_def, PriorityScore.mk.injEq]

/-- C4 (amended): absent, null and non-numeric values are coerced to `0`
before any arithmetic in both `calculatePriority` and
`calculateMetricRankings`, but negative numeric values are preserved
unchanged by `parseFloat(x) || 0` and `parseInt(x) || 0` (they are truthy),
so a client with negative AUA scores differently from one with AUA `0`
(`-7500` yields score `-1` while `0` yields score `0`). -/
theorem coercion_preserves_negatives :
    (∀ q : ℚ, or0F (JVal.num q) = q ∧ or0I (JVal.num q) = jsTrunc q ∧
      auaOf (mkNumClient q 0 0 0) = q) ∧
    (or0F JVal.undef = 0 ∧ or0F JVal.jnull = 0 ∧ or0F (JVal.str none) = 0 ∧
      or0I JVal.undef = 0 ∧ or0I JVal.jnull = 0 ∧ or0I (JVal.str none) = 0) ∧
    (calculatePriority (mkNumClient (-7500) 0 0 0)).score = -1 ∧
    (calculatePriority (mkNumClient 0 0 0 0)).score = 0 := by
  refine ⟨fun q => ⟨rfl, rfl, rfl⟩, ⟨rfl, rfl, rfl, rfl, rfl, rfl⟩, ?_, ?_⟩ <;>
    norm_num [calculatePriority, mkNumClient, or0F, or0I, jsParseFloat,
      jsParseInt, jsTrunc, auaComponent, feesComponent, loginsComponent,
      meetingsComponent, round2, round1, jsRound, min_def]

/-- C5 (counterexample): the scenario-1 client (AUA 650000, fees 12000,
20 logins, 6 meetings) does not receive score 100: the engagement block is
`min(20/18, 10) + min(6/5, 10) = 104/45`, not `20`, so the score is
`82.31`. -/
theorem scenario1_score_ne_100 :
    (calculatePriority (mkNumClient 650000 12000 20 6)).score ≠ 100 := by
  norm_num [calculatePriority, mkNumClient, or0F, or0I, jsParseFloat,
    jsParseInt, jsTrunc, auaComponent, feesComponent, loginsComponent,
    meetingsComponent, round2, round1, jsRound, min_def]

/-- C5 (amended): for the scenario-1 client the AUA component is 50 and the
fees component is 30, but the engagement contribution is
`20/18 + 6/5 = 104/45 ≈ 2.31` (the `/18` and `/5` scales reach their caps
only at 180 logins and 50 meetings), giving score `82.31` and tier High. -/
theorem scenario1_actual :
    auaComponent (or0F (mkNumClient 650000 12000 20 6).totalPortfolioAUA) = 50 ∧
    feesComponent (or0F (mkNumClient 650000 12000 20 6).totalFees) = 30 ∧
    loginsComponent (or0I (mkNumClient 650000 12000 20 6).loginsL12M) = 10/9 ∧
    meetingsComponent (or0I (mkNumClient 650000 12000 20 6).meetingsL12M) = 6/5 ∧
    (calculatePriority (mkNumClient 650000 12000 20 6)).score = 8231/100 ∧
    (calculatePriority (mkNumClient 650000 12000 20 6)).tier = Tier.High := by
  refine ⟨?_, ?_, ?_, ?_, ?_, ?_⟩ <;>
    norm_num [calculatePriority, mkNumClient, or0F, or0I, jsParseFloat,
      jsParseInt, jsTrunc, auaComponent, feesComponent, loginsComponent,
      meetingsComponent, round2, round1, jsRound, min_def]

/-- C6 (counterexample): the scenario-3 client (AUA 100000, fees 1500,
9 logins, 2.5 meetings) does not receive score 17.00: `parseInt` truncates
`2.5` to `2`, so the meetings part is `2/5 = 0.4` rather than `0.5` and the
score is `16.90`. -/
theorem scenario3_score_ne_17 :
    (calculatePriority (mkNumClient 100000 1500 9 (5/2))).score ≠ 17 := by
  norm_num [calculatePriority, mkNumClient, or0F, or0I, jsParseFloat,
    jsParseInt, jsTrunc, auaComponent, feesComponent, loginsComponent,
    meetingsComponent, round2, round1, jsRound, min_def]

/-- C6 (amended): for the scenario-3 client the AUA component is 10 and the
fees component is 6, the logins part is `9/18 = 0.5`, but the meetings
value `2.5` is truncated by `parseInt` to `2`, making the meetings part
`2/5 = 0.4`; the total is `16.9`, so the score is `16.90` and the tier is
Low. -/
theorem scenario3_actual :
    or0I (mkNumClient 100000 1500 9 (5/2)).meetingsL12M = 2 ∧
    auaComponent (or0F (mkNumClient 100000 1500 9 (5/2)).totalPortfolioAUA) = 10 ∧
    feesComponent (or0F (mkNumClient 100000 1500 9 (5/2)).totalFees) = 6 ∧
    loginsComponent (or0I (mkNumClient 100000 1500 9 (5/2)).loginsL12M) = 1/2 ∧
    meetingsComponent (or0I (mkNumClient 100000 1500 9 (5/2)).meetingsL12M) = 2/5 ∧
    (calculatePriority (mkNumClient 100000 1500 9 (5/2))).score = 169/10 ∧
    (calculatePriority (mkNumClient 100000 1500 9 (5/2))).tier = Tier.Low := by
  refine ⟨?_, ?_, ?_, ?_, ?_, ?_, ?_⟩ <;>
    norm_num [calculatePriority, mkNumClient, or0F, or0I, jsParseFloat,
      jsParseInt, jsTrunc, auaComponent, feesComponent, loginsComponent,
      meetingsComponent, round2, round1, jsRound, min_def]

/-- A field value that `parseFloat(x) || 0` and `parseInt(x) || 0` both
coerce to `0`: absent, null, or a non-numeric string. -/
def zeroCoerced (v : JVal) : Prop :=
  v = JVal.undef ∨ v = JVal.jnull ∨ v = JVal.str none

/-- C7: `calculatePriority` is a total function (the embedding can never
throw), and a record whose four metric fields are absent, null, or
non-numeric strings yields exactly the same `PriorityScore` — score, tier
and breakdown — as the record with those fields explicitly set to `0`. -/
theorem calculatePriority_zero_coercion (c : Client)
    (h1 : zeroCoerced c.totalPortfolioAUA) (h2 : zeroCoerced c.totalFees)
    (h3 : zeroCoerced c.loginsL12M) (h4 : zeroCoerced c.meetingsL12M) :
    calculatePriority c =
      calculatePriority
        { c with
          totalPortfolioAUA := JVal.num 0
          totalFees := JVal.num 0
          loginsL12M := JVal.num 0
          meetingsL12M := JVal.num 0 } := by
  obtain ⟨i, a, f, l, m⟩ := c
  rcases h1 with rfl | rfl | rfl <;> rcases h2 with rfl | rfl | rfl <;>
    rcases h3 with rfl | rfl | rfl <;> rcases h4 with rfl | rfl | rfl <;> rfl

/-- C7 witness: a record with an absent AUA, null fees, a non-numeric
string for logins and an absent meetings field scores the same as the
all-zero record. -/
theorem calculatePriority_zero_coercion_witness :
    zeroCoerced JVal.undef ∧
    calculatePriority ⟨none, JVal.undef, JVal.jnull, JVal.str none, JVal.undef⟩ =
      calculatePriority ⟨none, JVal.num 0, JVal.num 0, JVal.num 0, JVal.num 0⟩ :=
  ⟨Or.inl rfl,
    calculatePriority_zero_coercion
      ⟨none, JVal.undef, JVal.jnull, JVal.str none, JVal.undef⟩
      (Or.inl rfl) (Or.inr (Or.inl rfl)) (Or.inr (Or.inr rfl)) (Or.inl rfl)⟩

/-- Rank computed against one sorted ordering: in range `[1, N]` when some
cohort member carries the target identifier, and the sentinel `0` when none
does. -/
lemma rank_in_range_or_zero (le : Client → Client → Bool) (client : Client)
    (cohort : List Client) :
    ((∃ x ∈ cohort, x.id = client.id) →
      1 ≤ jsFindIndex (cohort.mergeSort le) (fun c => c.id == client.id) + 1 ∧
      jsFindIndex (cohort.mergeSort le) (fun c => c.id == client.id) + 1 ≤
        (cohort.length : ℤ)) ∧
    ((∀ x ∈ cohort, x.id ≠ client.id) →
      jsFindIndex (cohort.mergeSort le) (fun c => c.id == client.id) + 1 = 0) := by
  constructor
  · rintro ⟨x, hx, hid⟩
    have hex : ∃ y ∈ cohort.mergeSort le, (fun c => c.id == client.id) y =
        true := ⟨x, List.mem_mergeSort.mpr hx, by simp [hid]⟩
    have hlt := List.findIdx_lt_length_of_exists hex
    rw [List.length_mergeSort] at hlt
    unfold jsFindIndex
    rw [List.length_mergeSort, if_pos hlt]
    omega
  · intro hall
    have hfalse : ∀ y ∈ cohort.mergeSort le,
        (fun c => c.id == client.id) y = false := by
      intro y hy
      simpa using hall y (List.mem_mergeSort.mp hy)
    have heq := List.findIdx_eq_length_of_false hfalse
    unfold jsFindIndex
    rw [List.length_mergeSort] at heq ⊢
    rw [heq, if_neg (by omega)]
    omega

/-- C8: when the cohort contains a member with the target's identifier,
every rank returned by `calculateMetricRankings` lies in `[1, N]` and
`totalClients = N`; when no member carries the target's identifier, all
three ranks are the sentinel `0`. -/
theorem calculateMetricRankings_rank_range (client : Client)
    (cohort : List Client) :
    ((∃ x ∈ cohort, x.id = client.id) →
      (1 ≤ (calculateMetricRankings client cohort).auaRank ∧
        (calculateMetricRankings client cohort).auaRank ≤ (cohort.length : ℤ)) ∧
      (1 ≤ (calculateMetricRankings client cohort).feesRank ∧
        (calculateMetricRankings client cohort).feesRank ≤ (cohort.length : ℤ)) ∧
      (1 ≤ (calculateMetricRankings client cohort).engagementRank ∧
        (calculateMetricRankings client cohort).engagementRank ≤
          (cohort.length : ℤ)) ∧
      (calculateMetricRankings client cohort).totalClients = cohort.length) ∧
    ((∀ x ∈ cohort, x.id ≠ client.id) →
      (calculateMetricRankings client cohort).auaRank = 0 ∧
      (calculateMetricRankings client cohort).feesRank = 0 ∧
      (calculateMetricRankings client cohort).engagementRank = 0) := by
  have hA := rank_in_range_or_zero
    (fun a b => decide (auaOf b ≤ auaOf a)) client cohort
  have hF := rank_in_range_or_zero
    (fun a b => decide (feesOf b ≤ feesOf a)) client cohort
  have hE := rank_in_range_or_zero
    (fun a b => decide (engagementOf b ≤ engagementOf a)) client cohort
  constructor
  · intro hex
    exact ⟨hA.1 hex, hF.1 hex, hE.1 hex, rfl⟩
  · intro hall
    exact ⟨hA.2 hall, hF.2 hall, hE.2 hall⟩

/-- C8 witness: a singleton cohort containing the target itself gives ranks
in `[1, 1]`, and a cohort whose only member has a different identifier
gives the sentinel `0`. -/
theorem calculateMetricRankings_rank_range_witness :
    (1 ≤ (calculateMetricRankings (mkNumClient 0 0 0 0)
        [mkNumClient 0 0 0 0]).auaRank ∧
      (calculateMetricRankings (mkNumClient 0 0 0 0)
        [mkNumClient 0 0 0 0]).auaRank ≤ 1 ∧
      (calculateMetricRankings (mkNumClient 0 0 0 0)
        [mkNumClient 0 0 0 0]).totalClients = 1) ∧
    (calculateMetricRankings { mkNumClient 0 0 0 0 with id := some 1 }
      [mkNumClient 0 0 0 0]).auaRank = 0 := by
  have h1 := (calculateMetricRankings_rank_range (mkNumClient 0 0 0 0)
    [mkNumClient 0 0 0 0]).1 ⟨mkNumClient 0 0 0 0, by simp, rfl⟩
  have h2 := (calculateMetricRankings_rank_range
    { mkNumClient 0 0 0 0 with id := some 1 } [mkNumClient 0 0 0 0]).2
    (by intro x hx; rw [List.mem_singleton] at hx; subst hx; simp [mkNumClient])
  exact ⟨⟨h1.1.1, h1.1.2, h1.2.2.2⟩, h2.1⟩

/-- Rank computed against one sorted ordering when every identifier
(including the target's) is absent: the head of the sorted cohort matches
immediately, so the rank is `1`. -/
lemma rank_one_of_all_id_none (le : Client → Client → Bool) (client : Client)
    (cohort : List Client) (hc : client.id = none)
    (hall : ∀ x ∈ cohort, x.id = none) (hne : cohort ≠ []) :
    jsFindIndex (cohort.mergeSort le) (fun c => c.id == client.id) + 1 = 1 := by
  have hlen : (cohort.mergeSort le).length = cohort.length :=
    List.length_mergeSort cohort
  have hne2 : cohort.mergeSort le ≠ [] := by
    intro h
    apply hne
    have h2 := congrArg List.length h
    rw [hlen] at h2
    exact List.length_eq_zero.mp h2
  obtain ⟨y, ys, hys⟩ := List.exists_cons_of_ne_nil hne2
  have hy : y.id = none :=
    hall y (List.mem_mergeSort.mp (hys ▸ List.mem_cons_self y ys))
  have hfind : (cohort.mergeSort le).findIdx (fun c => c.id == client.id) = 0 := by
    rw [hys, List.findIdx_cons]
    simp [hy, hc]
  unfold jsFindIndex
  rw [hfind, if_pos]
  · omega
  · rw [hlen]
    cases cohort
    · exact absurd rfl hne
    · simp

/-- C10: cohort membership is decided by strict equality on `id`, and
`undefined === undefined` holds, so when the target and every cohort member
lack an `id`, the target matches the head of each sorted ordering: in any
non-empty cohort all three ranks are `1` (never the `0` sentinel),
regardless of the metric values. -/
theorem identifierless_ranks_one (client : Client) (cohort : List Client)
    (hc : client.id = none) (hall : ∀ x ∈ cohort, x.id = none)
    (hne : cohort ≠ []) :
    calculateMetricRankings client cohort =
      { auaRank := 1, feesRank := 1, engagementRank := 1,
        totalClients := cohort.length } := by
  show (⟨_, _, _, cohort.length⟩ : Rankings) = _
  rw [rank_one_of_all_id_none (fun a b => decide (auaOf b ≤ auaOf a))
      client cohort hc hall hne,
    rank_one_of_all_id_none (fun a b => decide (feesOf b ≤ feesOf a))
      client cohort hc hall hne,
    rank_one_of_all_id_none (fun a b => decide (engagementOf b ≤ engagementOf a))
      client cohort hc hall hne]

/-- C10 witness: an identifier-less client ranked against a singleton
identifier-less cohort with different metric values still gets all ranks
`1`. -/
theorem identifierless_ranks_one_witness :
    calculateMetricRankings (mkNumClient 0 0 0 0) [mkNumClient 650000 9999 7 3] =
      { auaRank := 1, feesRank := 1, engagementRank := 1, totalClients := 1 } :=
  identifierless_ranks_one (mkNumClient 0 0 0 0) [mkNumClient 650000 9999 7 3]
    rfl
    (by intro x hx; rw [List.mem_singleton] at hx; subst hx; rfl)
    (by simp)

/-- The `forEach` counting loop adds exactly one to the three-way total per
member. -/
lemma foldl_bumpTier_total (l : List ScoredClient) (tc : TierCounts) :
    (l.foldl (fun a c => bumpTier a c.priority.tier) tc).High +
      (l.foldl (fun a c => bumpTier a c.priority.tier) tc).Medium +
      (l.foldl (fun a c => bumpTier a c.priority.tier) tc).Low =
    tc.High + tc.Medium + tc.Low + l.length := by
  induction l generalizing tc with
  | nil => simp
  | cons x xs ih =>
    simp only [List.foldl_cons, List.length_cons]
    rw [ih]
    cases h : x.priority.tier <;> simp [bumpTier] <;> omega

/-- The `reduce` summation loop equals the sum of the mapped scores. -/
lemma foldl_score_sum (l : List ScoredClient) (a : ℚ) :
    l.foldl (fun s c => s + c.priority.score) a =
      a + (l.map (fun c => c.priority.score)).sum := by
  induction l generalizing a with
  | nil => simp
  | cons x xs ih =>
    simp only [List.foldl_cons, List.map_cons, List.sum_cons]
    rw [ih]
    ring

/-- C9: the tier counts reported by `calculateStatistics` sum exactly to
the cohort size, `totalClients` is the cohort size, the average score is
the arithmetic mean of the member scores rounded to 2 decimal places (via
`toFixed(2)`), and the empty cohort yields all-zero counts and average `0`
with no division-by-zero failure. -/
theorem calculateStatistics_spec (cohort : List ScoredClient) :
    ((calculateStatistics cohort).tierDistribution.map TierEntry.count).sum =
      cohort.length ∧
    (calculateStatistics cohort).totalClients = cohort.length ∧
    (calculateStatistics cohort).averageScore =
      (if cohort.length = 0 then 0
       else toFixed2 ((cohort.map (fun c => c.priority.score)).sum /
        (cohort.length : ℚ))) ∧
    (calculateStatistics []).tierDistribution =
      [⟨Tier.High, 0, "#10b981"⟩, ⟨Tier.Medium, 0, "#f97316"⟩,
        ⟨Tier.Low, 0, "#ef4444"⟩] ∧
    (calculateStatistics []).averageScore = 0 := by
  refine ⟨?_, rfl, ?_, rfl, rfl⟩
  · have h : (cohort.foldl (fun a c => bumpTier a c.priority.tier)
        ⟨0, 0, 0⟩).High +
        (cohort.foldl (fun a c => bumpTier a c.priority.tier) ⟨0, 0, 0⟩).Medium +
        (cohort.foldl (fun a c => bumpTier a c.priority.tier) ⟨0, 0, 0⟩).Low =
        cohort.length := by
      simpa using foldl_bumpTier_total cohort ⟨0, 0, 0⟩
    simp only [calculateStatistics, List.map_cons, List.map_nil,
      List.sum_cons, List.sum_nil]
    omega
  · simp only [calculateStatistics]
    rcases Nat.eq_zero_or_pos cohort.length with h | h
    · rw [if_neg (by omega), if_pos h]
    · rw [if_pos h, if_neg (by omega), foldl_score_sum, zero_add]
